import Mathlib

/-!
Verification of the SmartSync ML pipeline scripts.

Shallow embedding of the pure/data-flow parts of the repository's Python
scripts (`ml/scripts/*.py`).  Machine reals that the scripts manipulate with
plain arithmetic are modelled as `ℚ`; values produced by transcendental
library calls (`np.sin`, `np.cos`, `np.sqrt`) are modelled over `ℝ`.
Library calls whose internals are out of scope (the fitted `StandardScaler`
transform, the Keras model, the MD5 hash state, timestamp parsing, the
random-number generator) are passed in as explicit parameters, keeping the
scripts' own control flow and arithmetic exact.
-/

namespace SmartSync

/-- Python's `int()` applied to a float: truncation toward zero. -/
def pyInt (q : ℚ) : ℤ := if 0 ≤ q then ⌊q⌋ else ⌈q⌉

/-- Source `ml/scripts/train_smart_home.py` line 143: the fan-speed lambda
`lambda t: int(max(0, min(255, (t - 20) / 15 * 255))) if t > 24 else 0`. -/
def fanSpeed_of_temp (t : ℚ) : ℤ :=
  if 24 < t then pyInt (max 0 (min 255 ((t - 20) / 15 * 255))) else 0

/-- Source `ml/scripts/train_with_public_data.py` lines 115-116:
`fan = int((t - 20) / 15 * 255) if temp > 24 else 0; fan = max(0, min(255, fan))`. -/
def fanSpeed_public (t : ℚ) : ℤ :=
  let fan : ℤ := if 24 < t then pyInt ((t - 20) / 15 * 255) else 0
  max 0 (min 255 fan)

theorem pyInt_eq_floor {q : ℚ} (h : 0 ≤ q) : pyInt q = ⌊q⌋ := if_pos h

theorem fan_arg_eq (t : ℚ) : (t - 20) / 15 * 255 = 17 * t - 340 := by ring

theorem floor_255 : ⌊(255 : ℚ)⌋ = 255 := by
  norm_num

/-- C10: the fan speed derived from a temperature is an integer in `[0, 255]`;
it is `0` for `t ≤ 24` and otherwise `int(max(0, min(255, (t-20)/15*255)))`;
the `train_with_public_data.py` variant computes the same value. -/
theorem C10_fanSpeed_in_device_range (t : ℚ) :
    (0 ≤ fanSpeed_of_temp t ∧ fanSpeed_of_temp t ≤ 255) ∧
    (t ≤ 24 → fanSpeed_of_temp t = 0) ∧
    (24 < t → fanSpeed_of_temp t = pyInt (max 0 (min 255 ((t - 20) / 15 * 255)))) ∧
    fanSpeed_public t = fanSpeed_of_temp t := by
  by_cases h : 24 < t
  · have hx : (68 : ℚ) ≤ (t - 20) / 15 * 255 := by
      rw [fan_arg_eq]; linarith
    have hx0 : (0 : ℚ) ≤ (t - 20) / 15 * 255 := by linarith
    have hmin0 : (0 : ℚ) ≤ min 255 ((t - 20) / 15 * 255) :=
      le_min (by norm_num) hx0
    have hmax : max (0 : ℚ) (min 255 ((t - 20) / 15 * 255))
        = min 255 ((t - 20) / 15 * 255) := max_eq_right hmin0
    have hfs : fanSpeed_of_temp t = ⌊min (255 : ℚ) ((t - 20) / 15 * 255)⌋ := by
      rw [fanSpeed_of_temp, if_pos h, hmax, pyInt_eq_floor hmin0]
    refine ⟨⟨?_, ?_⟩, fun hle => absurd h (not_lt.mpr hle), fun _ => by
      rw [fanSpeed_of_temp, if_pos h], ?_⟩
    · rw [hfs]
      exact Int.le_floor.mpr (by exact_mod_cast hmin0)
    · rw [hfs]
      calc ⌊min (255 : ℚ) ((t - 20) / 15 * 255)⌋
          ≤ ⌊(255 : ℚ)⌋ := Int.floor_mono (min_le_left _ _)
        _ = 255 := floor_255
    · have hfloor68 : (68 : ℤ) ≤ ⌊(t - 20) / 15 * 255⌋ :=
        Int.le_floor.mpr (by exact_mod_cast hx)
      have hminpos : (0 : ℤ) ≤ min 255 ⌊(t - 20) / 15 * 255⌋ :=
        le_min (by norm_num) (by linarith)
      have : fanSpeed_public t = min 255 ⌊(t - 20) / 15 * 255⌋ := by
        rw [fanSpeed_public]
        simp only [if_pos h, pyInt_eq_floor hx0]
        exact max_eq_right hminpos
      rw [this, hfs]
      rcases le_total (255 : ℚ) ((t - 20) / 15 * 255) with hc | hc
      · rw [min_eq_left hc, floor_255,
          min_eq_left (floor_255 ▸ Int.floor_mono hc)]
      · rw [min_eq_right hc, min_eq_right (floor_255 ▸ Int.floor_mono hc)]
  · refine ⟨?_, fun _ => by rw [fanSpeed_of_temp, if_neg h], fun hlt => absurd hlt h, ?_⟩
    · rw [fanSpeed_of_temp, if_neg h]
      norm_num
    · rw [fanSpeed_public, fanSpeed_of_temp]
      simp [if_neg h]

/-- C10 witness: the range bounds at a concrete temperature. -/
theorem C10_fanSpeed_in_device_range_witness :
    0 ≤ fanSpeed_of_temp 30 ∧ fanSpeed_of_temp 30 ≤ 255 :=
  ⟨(C10_fanSpeed_in_device_range 30).1.1, (C10_fanSpeed_in_device_range 30).1.2⟩

/-! ### DataPreprocessor.create_sequences
`train_smart_home.py` lines 245-295 and `train_with_public_data.py` lines
178-213.  A row of the hourly feature dataframe carries the 13 feature-column
values and the two target-column values (`fanSpeed_<lambda>`,
`ledBrightness_<lambda>`).  The fitted `StandardScaler` is modelled by the
`transform` parameter (the library call `self.scaler.fit_transform`); the
state it is fitted on is recorded in the result so that skipping the fit is
observable. -/

structure FeatRow where
  feats : List ℚ
  fan : ℚ
  led : ℚ
  deriving DecidableEq

structure SeqResult where
  X : List (List (List ℚ))
  y : List (ℚ × ℚ)
  fittedOn : Option (List (List ℚ))
  deriving DecidableEq

/-- Slice `features_normalized[i:i + sequence_length]`. -/
def window (xs : List α) (i len : ℕ) : List α := (xs.drop i).take len

/-- Targets `df[target_cols].values / 255.0`. -/
def seqTargets (rows : List FeatRow) : List (ℚ × ℚ) :=
  rows.map fun r => (r.fan / 255, r.led / 255)

/-- The sequence-building loop shared verbatim by both scripts (normalize,
then for `i in range(len(df) - sequence_length)` append the window and the
target at `i + sequence_length`). -/
def create_sequences_core (transform : List (List ℚ) → List (List ℚ))
    (rows : List FeatRow) (seqLen : ℕ) : SeqResult :=
  let features := rows.map FeatRow.feats
  let normalized := transform features
  let targets := seqTargets rows
  { X := (List.range (rows.length - seqLen)).map fun i => window normalized i seqLen
    y := (List.range (rows.length - seqLen)).map fun i => targets.getD (i + seqLen) (0, 0)
    fittedOn := some features }

/-- Version of `create_sequences` in `train_smart_home.py`: guards
`if len(df) <= sequence_length` and returns two empty arrays without
fitting the scaler. -/
def create_sequences_smart_home (transform : List (List ℚ) → List (List ℚ))
    (rows : List FeatRow) (seqLen : ℕ) : SeqResult :=
  if rows.length ≤ seqLen then { X := [], y := [], fittedOn := none }
  else create_sequences_core transform rows seqLen

/-- Version of `create_sequences` in `train_with_public_data.py`: no guard, the loop over
`range(len(df) - sequence_length)` is simply empty for short input. -/
def create_sequences_public (transform : List (List ℚ) → List (List ℚ))
    (rows : List FeatRow) (seqLen : ℕ) : SeqResult :=
  create_sequences_core transform rows seqLen

/-! ### convert_tflite.py: anomaly_representative_dataset (lines 237-276)
Its branch structure: no data/scaler files → synthetic; some of the 15
feature columns missing from the dataframe → synthetic; otherwise real
data. -/

def anomalyFeatureCols : List String :=
  ["temperature_mean", "humidity_mean",
   "motion_24h_sum", "motion_24h_mean", "motion_24h_std",
   "temp_deviation", "temp_24h_range",
   "active_nighttime", "hours_since_motion",
   "fan_running", "led_running",
   "hour_sin", "hour_cos", "day_sin", "day_cos"]

inductive RepSource where
  | realData
  | syntheticNoFiles
  | syntheticMissingCols
  deriving DecidableEq

def anomaly_representative_dataset (filesExist : Bool) (dfCols : List String) :
    RepSource :=
  if filesExist then
    let available := anomalyFeatureCols.filter fun c => decide (c ∈ dfCols)
    if available.length < anomalyFeatureCols.length then .syntheticMissingCols
    else .realData
  else .syntheticNoFiles

/-- A one-row hourly dataframe (concrete input). -/
def oneRow : List FeatRow := [{ feats := [0], fan := 0, led := 0 }]

/-- C2 counterexample: the code does validate.  On a 1-row dataframe the
guarded `create_sequences` of `train_smart_home.py` behaves differently from
the guard-free `train_with_public_data.py` version (it skips the scaler fit),
and the anomaly representative-dataset generator switches to synthetic data
when a required feature column is missing. -/
theorem C2_validation_exists :
    create_sequences_smart_home id oneRow 168 ≠ create_sequences_public id oneRow 168 ∧
    anomaly_representative_dataset true ["hour_sin"] = RepSource.syntheticMissingCols := by
  constructor
  · decide
  · decide

/-- C2 (amended): the scripts mostly do not validate, but
`train_smart_home.py`'s `create_sequences` checks the row count (returning
empty arrays and skipping the scaler fit when `len(df) <= sequence_length`,
and behaving exactly like the unguarded variant otherwise), and
`anomaly_representative_dataset` checks for the presence of its 15 feature
columns (falling back to synthetic data exactly when one is missing). -/
theorem C2_validation_branches :
    (∀ (tr : List (List ℚ) → List (List ℚ)) (rows : List FeatRow),
      rows.length ≤ 168 →
        create_sequences_smart_home tr rows 168 = { X := [], y := [], fittedOn := none }) ∧
    (∀ (tr : List (List ℚ) → List (List ℚ)) (rows : List FeatRow),
      168 < rows.length →
        create_sequences_smart_home tr rows 168 = create_sequences_public tr rows 168) ∧
    (∀ cols : List String, (∃ c ∈ anomalyFeatureCols, c ∉ cols) →
        anomaly_representative_dataset true cols = RepSource.syntheticMissingCols) ∧
    (∀ cols : List String, (∀ c ∈ anomalyFeatureCols, c ∈ cols) →
        anomaly_representative_dataset true cols = RepSource.realData) := by
  refine ⟨fun tr rows h => ?_, fun tr rows h => ?_, fun cols h => ?_, fun cols h => ?_⟩
  · rw [create_sequences_smart_home, if_pos h]
  · rw [create_sequences_smart_home, if_neg (not_le.mpr h), create_sequences_public]
  · rw [anomaly_representative_dataset, if_pos rfl]
    have hlt : (anomalyFeatureCols.filter fun c => decide (c ∈ cols)).length
        < anomalyFeatureCols.length := by
      obtain ⟨c, hc, hnc⟩ := h
      exact List.length_filter_lt_length_iff_exists.mpr ⟨c, hc, by simpa using hnc⟩
    simp only [hlt, if_pos]
  · rw [anomaly_representative_dataset, if_pos rfl]
    have heq : (anomalyFeatureCols.filter fun c => decide (c ∈ cols))
        = anomalyFeatureCols :=
      List.filter_eq_self.mpr fun c hc => by simpa using h c hc
    rw [heq]
    simp

/-- C2 witness: the amended statement applied at concrete inputs. -/
theorem C2_validation_branches_witness :
    create_sequences_smart_home id oneRow 168 = { X := [], y := [], fittedOn := none } ∧
    anomaly_representative_dataset true anomalyFeatureCols = RepSource.realData :=
  ⟨C2_validation_branches.1 id oneRow (by decide),
   C2_validation_branches.2.2.2 anomalyFeatureCols fun c hc => hc⟩

/-- C3: with `sequence_length = 168`, `create_sequences` on an `n`-row hourly
dataframe returns exactly `n - 168` rolling windows; the `i`-th input
sequence is rows `i .. i+167` of the scaler-normalized feature matrix and the
`i`-th target is row `i+168`'s fanSpeed/ledBrightness divided by 255; for
`n ≤ 168` both arrays are empty (in both script variants). -/
theorem C3_create_sequences_windows (tr : List (List ℚ) → List (List ℚ))
    (rows : List FeatRow) :
    (rows.length ≤ 168 →
      create_sequences_smart_home tr rows 168 = { X := [], y := [], fittedOn := none } ∧
      (create_sequences_public tr rows 168).X = [] ∧
      (create_sequences_public tr rows 168).y = []) ∧
    (168 < rows.length →
      (create_sequences_smart_home tr rows 168).X.length = rows.length - 168 ∧
      (create_sequences_smart_home tr rows 168).y.length = rows.length - 168 ∧
      (∀ i, i < rows.length - 168 →
        (create_sequences_smart_home tr rows 168).X.get? i =
          some (window (tr (rows.map FeatRow.feats)) i 168) ∧
        (∀ j, j < 168 →
          (window (tr (rows.map FeatRow.feats)) i 168).get? j =
            (tr (rows.map FeatRow.feats)).get? (i + j)) ∧
        (∃ r : FeatRow, rows.get? (i + 168) = some r ∧
          (create_sequences_smart_home tr rows 168).y.get? i =
            some (r.fan / 255, r.led / 255)))) := by
  constructor
  · intro h
    refine ⟨by rw [create_sequences_smart_home, if_pos h], ?_, ?_⟩ <;>
      simp [create_sequences_public, create_sequences_core, Nat.sub_eq_zero_of_le h]
  · intro h
    have hne := not_le.mpr h
    have hcore : create_sequences_smart_home tr rows 168
        = create_sequences_core tr rows 168 := by
      rw [create_sequences_smart_home, if_neg hne]
    refine ⟨?_, ?_, ?_⟩
    · rw [hcore]; simp [create_sequences_core]
    · rw [hcore]; simp [create_sequences_core]
    · intro i hi
      refine ⟨?_, fun j hj => ?_, ?_⟩
      · rw [hcore]
        simp only [create_sequences_core, List.get?_map, List.get?_range hi,
          Option.map_some']
      · rw [window, List.get?_take hj, List.get?_drop]
      · have hidx : i + 168 < rows.length := by omega
        obtain ⟨r, hr⟩ : ∃ r, rows.get? (i + 168) = some r := by
          rw [List.get?_eq_get hidx]; exact ⟨_, rfl⟩
        refine ⟨r, hr, ?_⟩
        rw [hcore]
        simp only [create_sequences_core, List.get?_map, List.get?_range hi,
          Option.map_some', Option.some_inj]
        have : (seqTargets rows).get? (i + 168) = some (r.fan / 255, r.led / 255) := by
          rw [seqTargets, List.get?_map, hr, Option.map_some']
        rw [List.getD, this, Option.getD_some]

set_option maxRecDepth 8000 in
/-- C3 witness: a concrete 170-row dataframe yields 2 windows with the stated
contents. -/
theorem C3_create_sequences_windows_witness :
    (create_sequences_smart_home id (List.replicate 170 { feats := [0], fan := 51, led := 102 }) 168).X.length = 2 ∧
    (∃ r : FeatRow,
      (List.replicate 170 ({ feats := [0], fan := 51, led := 102 } : FeatRow)).get? (0 + 168) = some r ∧
      (create_sequences_smart_home id (List.replicate 170 { feats := [0], fan := 51, led := 102 }) 168).y.get? 0 =
        some (r.fan / 255, r.led / 255)) := by
  have h := C3_create_sequences_windows id
    (List.replicate 170 { feats := [0], fan := 51, led := 102 })
  have h2 := h.2 (by rw [List.length_replicate]; omega)
  exact ⟨h2.1, (h2.2.2 0 (by rw [List.length_replicate]; omega)).2.2⟩

/-! ### DataPreprocessor.add_temporal_features
`train_smart_home.py` lines 215-243, `train_model.py` lines 188-203 (the two
cited copies are line-for-line identical on these columns).  The pandas
accessors `dt.hour` / `dt.dayofweek` supply `hod` and `dow`. -/

structure TemporalFeatures where
  hour_of_day : ℕ
  day_of_week : ℕ
  is_weekend : ℕ
  is_night : ℕ
  hour_sin : ℝ
  hour_cos : ℝ
  day_sin : ℝ
  day_cos : ℝ

noncomputable def add_temporal_features (hod dow : ℕ) : TemporalFeatures :=
  { hour_of_day := hod
    day_of_week := dow
    is_weekend := if 5 ≤ dow then 1 else 0
    is_night := if 22 ≤ hod ∨ hod ≤ 6 then 1 else 0
    hour_sin := Real.sin (2 * Real.pi * hod / 24)
    hour_cos := Real.cos (2 * Real.pi * hod / 24)
    day_sin := Real.sin (2 * Real.pi * dow / 7)
    day_cos := Real.cos (2 * Real.pi * dow / 7) }

/-- C4: the cyclical time features are exactly the stated sine/cosine
formulas, `is_weekend = 1` iff `day_of_week ≥ 5`, `is_night = 1` iff the hour
is ≥ 22 or ≤ 6, and each (sin, cos) pair lies on the unit circle. -/
theorem C4_temporal_features (hod dow : ℕ) :
    (add_temporal_features hod dow).hour_sin = Real.sin (2 * Real.pi * hod / 24) ∧
    (add_temporal_features hod dow).hour_cos = Real.cos (2 * Real.pi * hod / 24) ∧
    (add_temporal_features hod dow).day_sin = Real.sin (2 * Real.pi * dow / 7) ∧
    (add_temporal_features hod dow).day_cos = Real.cos (2 * Real.pi * dow / 7) ∧
    ((add_temporal_features hod dow).is_weekend = 1 ↔ 5 ≤ dow) ∧
    ((add_temporal_features hod dow).is_night = 1 ↔ 22 ≤ hod ∨ hod ≤ 6) ∧
    (add_temporal_features hod dow).hour_sin ^ 2 +
      (add_temporal_features hod dow).hour_cos ^ 2 = 1 ∧
    (add_temporal_features hod dow).day_sin ^ 2 +
      (add_temporal_features hod dow).day_cos ^ 2 = 1 := by
  refine ⟨rfl, rfl, rfl, rfl, ?_, ?_, ?_, ?_⟩
  · simp only [add_temporal_features]
    split <;> simp_all
  · simp only [add_temporal_features]
    split <;> simp_all
  · exact Real.sin_sq_add_cos_sq _
  · exact Real.sin_sq_add_cos_sq _

/-! ### train_anomaly_detector.py: threshold and evaluation
`calculate_anomaly_threshold` (lines 234-256) and `evaluate_autoencoder`
(lines 259-287).  The Keras autoencoder (`model.predict`) is the `model`
parameter; `np.mean`/`np.std` over the per-sequence squared errors are
embedded directly (numpy's `std` is the population standard deviation). -/

noncomputable def npMean (l : List ℝ) : ℝ := l.sum / l.length

noncomputable def npStd (l : List ℝ) : ℝ :=
  Real.sqrt (npMean (l.map fun e => (e - npMean l) ^ 2))

/-- Per-sequence `np.mean(np.square(x - xhat), axis=(1, 2))`: the mean of
the squared entrywise differences. -/
noncomputable def mseSeq (x xhat : List (List ℝ)) : ℝ :=
  npMean (((x.zip xhat).map fun p => (p.1.zip p.2).map fun q => (q.1 - q.2) ^ 2).join)

noncomputable def reconstructionErrors (model : List (List ℝ) → List (List ℝ))
    (X : List (List (List ℝ))) : List ℝ :=
  X.map fun x => mseSeq x (model x)

/-- Function `calculate_anomaly_threshold`: `(threshold, mean_mse, std_mse)` with
`threshold = mean + 2 * std` of the training reconstruction errors. -/
noncomputable def calculate_anomaly_threshold
    (model : List (List ℝ) → List (List ℝ)) (Xtrain : List (List (List ℝ))) :
    ℝ × ℝ × ℝ :=
  let errs := reconstructionErrors model Xtrain
  (npMean errs + 2 * npStd errs, npMean errs, npStd errs)

/-- In `evaluate_autoencoder` line 270, `anomalies = mse > threshold` — the
`i`-th test sequence is flagged iff its reconstruction error strictly exceeds
the threshold. -/
def anomalyFlagged (model : List (List ℝ) → List (List ℝ))
    (Xtest : List (List (List ℝ))) (threshold : ℝ) (i : ℕ) : Prop :=
  threshold < (reconstructionErrors model Xtest).getD i 0

/-- C5: the anomaly score is the per-sequence mean squared reconstruction
error, the threshold is `mean + 2 * std` over the training errors (hence at
least the mean), and a test sequence is flagged anomalous exactly when its
error strictly exceeds the threshold (so every flagged sequence's error also
exceeds the training mean). -/
theorem C5_anomaly_threshold (model : List (List ℝ) → List (List ℝ))
    (Xtrain Xtest : List (List (List ℝ))) :
    (calculate_anomaly_threshold model Xtrain).1
      = npMean (reconstructionErrors model Xtrain)
        + 2 * npStd (reconstructionErrors model Xtrain) ∧
    (∀ x ∈ Xtrain, mseSeq x (model x) ∈ reconstructionErrors model Xtrain) ∧
    npMean (reconstructionErrors model Xtrain)
      ≤ (calculate_anomaly_threshold model Xtrain).1 ∧
    (∀ i, anomalyFlagged model Xtest (calculate_anomaly_threshold model Xtrain).1 i ↔
      (calculate_anomaly_threshold model Xtrain).1
        < (reconstructionErrors model Xtest).getD i 0) ∧
    (∀ i, anomalyFlagged model Xtest (calculate_anomaly_threshold model Xtrain).1 i →
      npMean (reconstructionErrors model Xtrain)
        < (reconstructionErrors model Xtest).getD i 0) := by
  have hstd : 0 ≤ npStd (reconstructionErrors model Xtrain) := Real.sqrt_nonneg _
  have hthr : npMean (reconstructionErrors model Xtrain)
      ≤ (calculate_anomaly_threshold model Xtrain).1 := by
    simp only [calculate_anomaly_threshold]
    linarith
  refine ⟨rfl, fun x hx => ?_, hthr, fun i => Iff.rfl, fun i hi => ?_⟩
  · exact List.mem_map.mpr ⟨x, hx, rfl⟩
  · exact lt_of_le_of_lt hthr hi

/-- C5 witness: the theorem applied at a concrete model and dataset. -/
theorem C5_anomaly_threshold_witness :
    (calculate_anomaly_threshold id [[[0]]]).1
      = npMean (reconstructionErrors id [[[0]]])
        + 2 * npStd (reconstructionErrors id [[[0]]]) ∧
    npMean (reconstructionErrors id [[[0]]])
      ≤ (calculate_anomaly_threshold id [[[0]]]).1 :=
  ⟨(C5_anomaly_threshold id [[[0]]] []).1,
   (C5_anomaly_threshold id [[[0]]] []).2.2.1⟩

/-! ### deploy_model.py
`calculate_checksum` (lines 71-77), `upload_model` (79-134),
`upload_metadata` (136-155), `update_firestore_config` (158-202), and the
TFJS upload loop of `tfjs/deploy_tfjs.py` (35-74).  The `hashlib.md5` object
is modelled as an abstract incremental-hash state with the library's
documented contract (updating with concatenated data equals successive
updates; updating with empty data is a no-op).  Cloud-SDK calls that can
raise are driven by explicit environment flags; the blob operations are
recorded as an event trace. -/

structure HashModel (σ : Type) where
  init : σ
  update : σ → List ℕ → σ
  update_nil : ∀ s, update s [] = s
  update_append : ∀ s a b, update s (a ++ b) = update (update s a) b

/-- Loop `iter(lambda: f.read(4096), b"")`: the file's bytes cut into successive
chunks of (at most) 4096. -/
def chunks4096 : List α → List (List α)
  | [] => []
  | a :: rest => ((a :: rest).take 4096) :: chunks4096 ((a :: rest).drop 4096)
  termination_by l => l.length
  decreasing_by simp [List.length_drop]; omega

/-- Function `calculate_checksum`: fold the hash update over the 4096-byte chunks. -/
def calculate_checksum (H : HashModel σ) (bytes : List ℕ) : σ :=
  (chunks4096 bytes).foldl H.update H.init

/-- Modelled from the spec's words for the refinement comparison: "the MD5
digest of the complete local model file's bytes" — one single update over
the whole content. -/
def md5_whole_file (H : HashModel σ) (bytes : List ℕ) : σ :=
  H.update H.init bytes

theorem chunks4096_join (l : List α) : (chunks4096 l).join = l := by
  induction l using chunks4096.induct with
  | case1 => rw [chunks4096]; rfl
  | case2 a rest ih =>
    rw [chunks4096]
    simpa [List.join] using congrArg (List.take 4096 (a :: rest) ++ ·) ih

theorem foldl_update_join (H : HashModel σ) (cs : List (List ℕ)) (s : σ) :
    cs.foldl H.update s = H.update s cs.join := by
  induction cs generalizing s with
  | nil => simp [H.update_nil]
  | cons c cs ih => simp [List.foldl_cons, ih, H.update_append]

inductive Ev where
  | upload : String → Ev
  | makePublic : String → Ev
  deriving DecidableEq

/-- Values stored in the ad hoc JSON-like dicts the script builds. -/
inductive DVal (σ : Type) where
  | str : String → DVal σ
  | rat : ℚ → DVal σ
  | digest : σ → DVal σ

/-- The filesystem / cloud-SDK environment a single upload runs against. -/
structure UploadEnv where
  fileExists : Bool
  statRaises : Bool
  readRaises : Bool
  uploadRaises : Bool
  makePublicRaises : Bool
  bytes : List ℕ
  sizeMB : ℚ
  publicUrl : String

/-- Function `upload_model`: returns `None` when the file is missing or any step of
the guarded block raises (the broad `except` catches everything), otherwise
the info dict; second component is the trace of blob operations. -/
def upload_model (H : HashModel σ) (env : UploadEnv) (modelName : String) :
    Option (List (String × DVal σ)) × List Ev :=
  if !env.fileExists then (none, [])
  else if env.statRaises then (none, [])
  else if env.readRaises then (none, [])
  else
    let checksum := calculate_checksum H env.bytes
    let blobName := "models/" ++ modelName ++ "_v1.tflite"
    if env.uploadRaises then (none, [])
    else if env.makePublicRaises then (none, [Ev.upload blobName])
    else
      (some [("url", DVal.str env.publicUrl), ("path", DVal.str blobName),
             ("size_mb", DVal.rat env.sizeMB), ("checksum", DVal.digest checksum)],
       [Ev.upload blobName, Ev.makePublic blobName])

/-- Function `upload_metadata` (lines 136-155): same shape, returns the public URL. -/
def upload_metadata (env : UploadEnv) (modelName : String) :
    Option String × List Ev :=
  if !env.fileExists then (none, [])
  else
    let blobName := "models/" ++ modelName ++ "_v1_metadata.json"
    if env.uploadRaises then (none, [])
    else if env.makePublicRaises then (none, [Ev.upload blobName])
    else (some env.publicUrl, [Ev.upload blobName, Ev.makePublic blobName])

/-- One model's entry in the `system_config/ml_models` Firestore document
(`update_firestore_config`, lines 172-189). -/
structure ModelInfo (σ : Type) where
  version : String
  url : String
  checksum : σ
  size_mb : ℚ
  path : String

structure FirestoreModelEntry (σ : Type) where
  currentVersion : String
  downloadUrl : String
  checksum : σ
  sizeMB : ℚ
  minAppVersion : String
  releaseDate : String
  changelog : String
  deployed : Bool
  modelPath : String

def firestoreEntry (now : String) (name : String) (info : ModelInfo σ) :
    FirestoreModelEntry σ :=
  { currentVersion := info.version
    downloadUrl := info.url
    checksum := info.checksum
    sizeMB := info.size_mb
    minAppVersion := "1.0.0"
    releaseDate := now
    changelog := "Initial release - " ++ name
    deployed := true
    modelPath := info.path }

/-- The `models` map written by `update_firestore_config`. -/
def update_firestore_config (now : String)
    (models : List (String × ModelInfo σ)) :
    List (String × FirestoreModelEntry σ) :=
  models.map fun p => (p.1, firestoreEntry now p.1 p.2)

/-! TFJS upload (`tfjs/deploy_tfjs.py` lines 35-74): a loop over the files of
the model directory with no exception handler — a raise mid-loop propagates
(no success value is produced). -/

structure TfjsEnv where
  dirExists : Bool
  uploadRaises : String → Bool
  makePublicRaises : String → Bool
  publicUrl : String → String
  size : String → ℕ

structure TFile where
  name : String
  url : String
  size : ℕ
  deriving DecidableEq

def upload_tfjs_loop (env : TfjsEnv) (modelName : String) :
    List String → Option (List TFile) × List Ev
  | [] => (some [], [])
  | f :: rest =>
    let blobName := "models/" ++ modelName ++ "_v1/" ++ f
    if env.uploadRaises f then (none, [])
    else if env.makePublicRaises f then (none, [Ev.upload blobName])
    else
      match upload_tfjs_loop env modelName rest with
      | (none, evs) => (none, Ev.upload blobName :: Ev.makePublic blobName :: evs)
      | (some fs, evs) =>
        (some ({ name := f, url := env.publicUrl blobName, size := env.size f } :: fs),
         Ev.upload blobName :: Ev.makePublic blobName :: evs)

def upload_tfjs_model (env : TfjsEnv) (modelName : String) (files : List String) :
    Option (List TFile) × List Ev :=
  if !env.dirExists then (none, [])
  else upload_tfjs_loop env modelName files

/-- C6: `upload_model` returns the `None` sentinel exactly on the failure
paths (missing file, or a raise during stat/checksum/upload/make_public) and
on success returns a dict whose keys are exactly
`url`, `path`, `size_mb`, `checksum`; it never propagates an exception
(it is total over every environment). -/
theorem C6_upload_model_sentinel (σ : Type) (H : HashModel σ)
    (env : UploadEnv) (name : String) :
    ((upload_model H env name).1 = none ↔
      (env.fileExists = false ∨ env.statRaises = true ∨ env.readRaises = true ∨
       env.uploadRaises = true ∨ env.makePublicRaises = true)) ∧
    (∀ d, (upload_model H env name).1 = some d →
      d.map Prod.fst = ["url", "path", "size_mb", "checksum"]) := by
  obtain ⟨fe, sr, rr, ur, mr, b, s, u⟩ := env
  cases fe <;> cases sr <;> cases rr <;> cases ur <;> cases mr <;>
    simp [upload_model]

/-- A fully healthy upload environment (concrete input for witnesses). -/
def goodUploadEnv : UploadEnv :=
  { fileExists := true, statRaises := false, readRaises := false,
    uploadRaises := false, makePublicRaises := false,
    bytes := [1, 2, 3], sizeMB := 1, publicUrl := "https://example/blob" }

/-- A concrete incremental-hash instance (state = bytes seen so far). -/
def listHash : HashModel (List ℕ) :=
  { init := []
    update := fun s a => s ++ a
    update_nil := by intro s; simp
    update_append := by intro s a b; simp }

/-- C6 witness: on the healthy environment the dict is returned with exactly
the four keys. -/
theorem C6_upload_model_sentinel_witness :
    ∃ d, (upload_model listHash goodUploadEnv "schedule_predictor").1 = some d ∧
      d.map Prod.fst = ["url", "path", "size_mb", "checksum"] := by
  refine ⟨_, rfl, ?_⟩
  exact (C6_upload_model_sentinel (List ℕ) listHash goodUploadEnv
    "schedule_predictor").2 _ rfl

/-- C7: the chunked MD5 of `calculate_checksum` equals one digest over the
whole file's bytes; the checksum placed in `upload_model`'s info dict is that
whole-file digest; and `update_firestore_config` writes each model's entry
with exactly the info's checksum and download URL. -/
theorem C7_checksum_refinement :
    (∀ (σ : Type) (H : HashModel σ) (bytes : List ℕ),
      calculate_checksum H bytes = md5_whole_file H bytes) ∧
    (∀ (σ : Type) (H : HashModel σ) (env : UploadEnv) (name : String)
      (d : List (String × DVal σ)), (upload_model H env name).1 = some d →
      List.lookup "checksum" d = some (DVal.digest (md5_whole_file H env.bytes))) ∧
    (∀ (σ : Type) (now : String) (models : List (String × ModelInfo σ))
      (name : String) (info : ModelInfo σ), (name, info) ∈ models →
      (name, firestoreEntry now name info) ∈ update_firestore_config now models ∧
      (firestoreEntry now name info).checksum = info.checksum ∧
      (firestoreEntry now name info).downloadUrl = info.url) := by
  have hchunk : ∀ (σ : Type) (H : HashModel σ) (bytes : List ℕ),
      calculate_checksum H bytes = md5_whole_file H bytes := by
    intro σ H bytes
    rw [calculate_checksum, foldl_update_join, chunks4096_join, md5_whole_file]
  refine ⟨hchunk, ?_, ?_⟩
  · intro σ H env name d hd
    obtain ⟨fe, sr, rr, ur, mr, b, s, u⟩ := env
    cases fe <;> cases sr <;> cases rr <;> cases ur <;> cases mr <;>
      simp [upload_model] at hd
    rw [← hd]
    simp [List.lookup]
    exact hchunk σ H b
  · intro σ now models name info hmem
    exact ⟨List.mem_map.mpr ⟨(name, info), hmem, rfl⟩, rfl, rfl⟩

/-- C7 witness: the refinement at a concrete hash model, byte string and
model list. -/
theorem C7_checksum_refinement_witness :
    calculate_checksum listHash [1, 2, 3] = md5_whole_file listHash [1, 2, 3] ∧
    ("m", firestoreEntry "now" "m"
        ({ version := "1.0.0", url := "u", checksum := [7],
           size_mb := 1, path := "p" } : ModelInfo (List ℕ))) ∈
      update_firestore_config "now"
        [("m", { version := "1.0.0", url := "u", checksum := [7],
                 size_mb := 1, path := "p" })] :=
  ⟨C7_checksum_refinement.1 (List ℕ) listHash [1, 2, 3],
   (C7_checksum_refinement.2.2 (List ℕ) "now"
      [("m", { version := "1.0.0", url := "u", checksum := [7],
               size_mb := 1, path := "p" })]
      "m" _ (List.mem_singleton.mpr rfl)).1⟩

theorem upload_tfjs_loop_public (env : TfjsEnv) (name : String) :
    ∀ (files : List String) (fs : List TFile) (evs : List Ev),
      upload_tfjs_loop env name files = (some fs, evs) →
      ∀ b, Ev.upload b ∈ evs → Ev.makePublic b ∈ evs := by
  intro files
  induction files with
  | nil =>
    intro fs evs h b hb
    rw [upload_tfjs_loop] at h
    cases h
    simp at hb
  | cons f rest ih =>
    intro fs evs h b hb
    rw [upload_tfjs_loop] at h
    by_cases h1 : env.uploadRaises f
    · rw [if_pos h1] at h; cases h
    · rw [if_neg h1] at h
      by_cases h2 : env.makePublicRaises f
      · rw [if_pos h2] at h; cases h
      · rw [if_neg h2] at h
        rcases hrec : upload_tfjs_loop env name rest with ⟨o, evs'⟩
        rw [hrec] at h
        cases o with
        | none => simp at h
        | some fs' =>
          simp only [Prod.mk.injEq] at h
          obtain ⟨-, hevs⟩ := h
          subst hevs
          simp only [List.mem_cons] at hb
          rcases hb with hb | hb | hb
          · rw [Ev.upload.injEq] at hb
            subst hb
            exact List.mem_cons_of_mem _ (List.mem_cons_self _ _)
          · exact absurd hb (by simp)
          · exact List.mem_cons_of_mem _
              (List.mem_cons_of_mem _ (ih fs' evs' hrec b hb))

/-- C8: whenever `upload_model`, `upload_metadata`, or the TFJS upload loop
returns a success value, `make_public` was invoked on every uploaded blob
(it appears in the operation trace); no success is returned for a blob that
was not made public. -/
theorem C8_make_public_before_success :
    (∀ (σ : Type) (H : HashModel σ) (env : UploadEnv) (name : String),
      (upload_model H env name).1.isSome = true →
      ∀ b, Ev.upload b ∈ (upload_model H env name).2 →
        Ev.makePublic b ∈ (upload_model H env name).2) ∧
    (∀ (env : UploadEnv) (name : String),
      (upload_metadata env name).1.isSome = true →
      ∀ b, Ev.upload b ∈ (upload_metadata env name).2 →
        Ev.makePublic b ∈ (upload_metadata env name).2) ∧
    (∀ (env : TfjsEnv) (name : String) (files : List String),
      (upload_tfjs_model env name files).1.isSome = true →
      ∀ b, Ev.upload b ∈ (upload_tfjs_model env name files).2 →
        Ev.makePublic b ∈ (upload_tfjs_model env name files).2) := by
  refine ⟨?_, ?_, ?_⟩
  · intro σ H env name hsome b hb
    obtain ⟨fe, sr, rr, ur, mr, bs, s, u⟩ := env
    cases fe <;> cases sr <;> cases rr <;> cases ur <;> cases mr <;>
      simp_all [upload_model]
  · intro env name hsome b hb
    obtain ⟨fe, sr, rr, ur, mr, bs, s, u⟩ := env
    cases fe <;> cases sr <;> cases rr <;> cases ur <;> cases mr <;>
      simp_all [upload_metadata]
  · intro env name files hsome b hb
    rw [upload_tfjs_model] at hsome hb ⊢
    by_cases hd : env.dirExists
    · simp only [hd, Bool.not_true, Bool.false_eq_true, if_false] at hsome hb ⊢
      rcases hloop : upload_tfjs_loop env name files with ⟨o, evs⟩
      rw [hloop] at hsome hb
      cases o with
      | none => simp at hsome
      | some fs => exact upload_tfjs_loop_public env name files fs evs hloop b hb
    · simp only [hd] at hsome
      simp at hsome

/-- C8 witness: on the healthy environment the uploaded metadata blob is made
public in the trace of the returned success. -/
theorem C8_make_public_before_success_witness :
    Ev.makePublic "models/m_v1_metadata.json" ∈ (upload_metadata goodUploadEnv "m").2 :=
  C8_make_public_before_success.2.1 goodUploadEnv "m" rfl
    "models/m_v1_metadata.json" (by simp [upload_metadata, goodUploadEnv])

/-! ### convert_tflite.py: save_model_metadata (lines 355-397)
Loads the training metadata JSON if present (else `{}`), then
`metadata.update({...12 TFLite keys...})` and writes the result.  A JSON
object is an association list; `dictUpdate` models Python's `dict.update`
(existing keys overwritten in place, new keys appended). -/

/-- Overwrite one existing entry with `u`'s value for its key, if any. -/
def updEntry (u : List (String × V)) (p : String × V) : String × V :=
  match List.lookup p.1 u with
  | some v => (p.1, v)
  | none => p

def dictUpdate (d u : List (String × V)) : List (String × V) :=
  d.map (updEntry u) ++ u.filter fun p => (List.lookup p.1 d).isNone

theorem lookup_append {α β : Type} [BEq α] (l₁ l₂ : List (α × β)) (a : α) :
    List.lookup a (l₁ ++ l₂) = (List.lookup a l₁).or (List.lookup a l₂) := by
  induction l₁ with
  | nil => simp [List.lookup]
  | cons p l ih =>
    obtain ⟨k, v⟩ := p
    cases h : a == k <;> simp [List.lookup, h, ih]

theorem lookup_map_update {V : Type} (d u : List (String × V)) (k : String) :
    List.lookup k (d.map (updEntry u)) =
      (List.lookup k d).map fun w => (List.lookup k u).getD w := by
  induction d with
  | nil => simp [List.lookup]
  | cons p d ih =>
    obtain ⟨k₀, v₀⟩ := p
    cases h : k == k₀ with
    | false =>
      cases hu : List.lookup k₀ u <;>
        simp [List.lookup, updEntry, h, hu, ih]
    | true =>
      have : k = k₀ := by simpa using h
      subst this
      cases hu : List.lookup k u <;>
        simp [List.lookup, updEntry, hu]

theorem lookup_filter_new {V : Type} (d u : List (String × V)) (k : String) :
    List.lookup k (u.filter fun p => (List.lookup p.1 d).isNone) =
      if (List.lookup k d).isNone then List.lookup k u else none := by
  induction u with
  | nil => simp [List.lookup]
  | cons p u ih =>
    obtain ⟨k₁, v₁⟩ := p
    cases hk : k == k₁ with
    | false =>
      cases hd1 : (List.lookup k₁ d).isNone <;>
        simp [List.filter, hd1, List.lookup, hk, ih]
    | true =>
      have : k = k₁ := by simpa using hk
      subst this
      cases hd1 : (List.lookup k d).isNone <;>
        simp [List.filter, hd1, List.lookup, ih]

/-- Python `dict.update` lookup semantics: keys of `u` take `u`'s value,
all other keys keep `d`'s value. -/
theorem lookup_dictUpdate {V : Type} (d u : List (String × V)) (k : String) :
    List.lookup k (dictUpdate d u) =
      match List.lookup k u with
      | some v => some v
      | none => List.lookup k d := by
  rw [dictUpdate, lookup_append, lookup_map_update, lookup_filter_new]
  cases hu : List.lookup k u <;> cases hd : List.lookup k d <;>
    simp [hu, hd, Option.or]

theorem lookup_eq_none_of_not_mem_keys {V : Type} (l : List (String × V))
    (k : String) (h : k ∉ l.map Prod.fst) : List.lookup k l = none := by
  induction l with
  | nil => rfl
  | cons p l ih =>
    obtain ⟨k₀, v₀⟩ := p
    simp only [List.map_cons, List.mem_cons, not_or] at h
    have : (k == k₀) = false := beq_eq_false_iff_ne.mpr h.1
    simp [List.lookup, this, ih h.2]

/-- The 12 TFLite-specific keys set by `metadata.update` (lines 377-390). -/
def tfliteUpdateKeys : List String :=
  ["model_name", "model_version", "tflite_model_path", "tflite_model_size_mb",
   "input_shape", "output_shape", "quantized", "quantization_type",
   "conversion_date", "tensorflow_version", "framework", "inference_type"]

/-- The new values for those keys (value representation left abstract). -/
structure TFLiteMeta (V : Type) where
  model_name : V
  model_version : V
  tflite_model_path : V
  tflite_model_size_mb : V
  input_shape : V
  output_shape : V
  quantized : V
  quantization_type : V
  conversion_date : V
  tensorflow_version : V
  framework : V
  inference_type : V

def tflite_updates (m : TFLiteMeta V) : List (String × V) :=
  [("model_name", m.model_name), ("model_version", m.model_version),
   ("tflite_model_path", m.tflite_model_path),
   ("tflite_model_size_mb", m.tflite_model_size_mb),
   ("input_shape", m.input_shape), ("output_shape", m.output_shape),
   ("quantized", m.quantized), ("quantization_type", m.quantization_type),
   ("conversion_date", m.conversion_date),
   ("tensorflow_version", m.tensorflow_version),
   ("framework", m.framework), ("inference_type", m.inference_type)]

/-- Function `save_model_metadata`: start from the training metadata when its file
exists (else `{}`) and apply the TFLite update. -/
def save_model_metadata (training : Option (List (String × V)))
    (m : TFLiteMeta V) : List (String × V) :=
  dictUpdate (training.getD []) (tflite_updates m)

theorem tflite_updates_keys (m : TFLiteMeta V) :
    (tflite_updates m).map Prod.fst = tfliteUpdateKeys := rfl

/-- C9: when a training metadata file exists, the regenerated metadata keeps
every key outside the 12 TFLite update keys unchanged, and sets each of the
12 TFLite keys to its new value, overwriting any previous value. -/
theorem C9_metadata_update (V : Type) (training : List (String × V))
    (m : TFLiteMeta V) :
    (∀ k : String, k ∉ tfliteUpdateKeys →
      List.lookup k (save_model_metadata (some training) m) =
        List.lookup k training) ∧
    (List.lookup "model_name" (save_model_metadata (some training) m)
        = some m.model_name ∧
     List.lookup "model_version" (save_model_metadata (some training) m)
        = some m.model_version ∧
     List.lookup "tflite_model_path" (save_model_metadata (some training) m)
        = some m.tflite_model_path ∧
     List.lookup "tflite_model_size_mb" (save_model_metadata (some training) m)
        = some m.tflite_model_size_mb ∧
     List.lookup "input_shape" (save_model_metadata (some training) m)
        = some m.input_shape ∧
     List.lookup "output_shape" (save_model_metadata (some training) m)
        = some m.output_shape ∧
     List.lookup "quantized" (save_model_metadata (some training) m)
        = some m.quantized ∧
     List.lookup "quantization_type" (save_model_metadata (some training) m)
        = some m.quantization_type ∧
     List.lookup "conversion_date" (save_model_metadata (some training) m)
        = some m.conversion_date ∧
     List.lookup "tensorflow_version" (save_model_metadata (some training) m)
        = some m.tensorflow_version ∧
     List.lookup "framework" (save_model_metadata (some training) m)
        = some m.framework ∧
     List.lookup "inference_type" (save_model_metadata (some training) m)
        = some m.inference_type) := by
  constructor
  · intro k hk
    have hu : List.lookup k (tflite_updates m) = none :=
      lookup_eq_none_of_not_mem_keys _ k (by rwa [tflite_updates_keys])
    rw [save_model_metadata, Option.getD_some, lookup_dictUpdate, hu]
  · refine ⟨?_, ?_, ?_, ?_, ?_, ?_, ?_, ?_, ?_, ?_, ?_, ?_⟩ <;>
      · rw [save_model_metadata, Option.getD_some, lookup_dictUpdate]
        simp [tflite_updates, List.lookup]

/-- C9 witness: a concrete training metadata dict keeps its `metrics` entry
and gets the new `model_name`. -/
theorem C9_metadata_update_witness :
    List.lookup "metrics"
      (save_model_metadata (some [("metrics", 5)])
        ({ model_name := 1, model_version := 1, tflite_model_path := 1,
           tflite_model_size_mb := 1, input_shape := 1, output_shape := 1,
           quantized := 1, quantization_type := 1, conversion_date := 1,
           tensorflow_version := 1, framework := 1,
           inference_type := 1 } : TFLiteMeta ℕ)) = some 5 :=
  (C9_metadata_update ℕ [("metrics", 5)] _).1 "metrics" (by decide)

/-! ### train_smart_home.py: convert_to_smartsync_format (lines 107-165)
The input dataframe is modelled by its column-name list, its row count, and
the per-row values of the columns the function reads.  `pd.to_datetime(...,
errors="coerce")` is the `parse` parameter (`none` = `NaT`); the
`np.random` draws are explicit streams. -/

structure KaggleDF where
  cols : List String
  nrows : ℕ
  timeVal : ℕ → String
  power : ℕ → ℚ
  state : ℕ → String

/-- The random draws the function makes (one stream per call site). -/
structure Rng where
  tRnd : ℕ → ℚ
  hRnd : ℕ → ℚ
  mBit : ℕ → ℕ
  ledHi : ℕ → ℕ
  ledLo : ℕ → ℕ
  distHi : ℕ → ℚ
  distLo : ℕ → ℚ

inductive Branch where
  | power
  | sensorState
  | fallback
  deriving DecidableEq

structure SSRow where
  ts : Option ℚ
  temperature : ℚ
  humidity : ℚ
  motionDetected : ℚ
  fanSpeed : ℤ
  ledBrightness : ℕ
  distance : ℚ
  deriving DecidableEq

/-- Mean `df['use [kW]'].mean()`. -/
def powerMean (df : KaggleDF) : ℚ :=
  (((List.range df.nrows).map df.power).sum) / df.nrows

/-- The `if 'use [kW]' in df.columns / elif 'sensor' ... and 'state' ... /
else` cascade. -/
def branchOf (df : KaggleDF) : Branch :=
  if "use [kW]" ∈ df.cols then .power
  else if "sensor" ∈ df.cols ∧ "state" ∈ df.cols then .sensorState
  else .fallback

/-- Row `i`'s (temperature, humidity, motionDetected) per branch. -/
def baseFeatures (df : KaggleDF) (rng : Rng) (i : ℕ) : ℚ × ℚ × ℚ :=
  match branchOf df with
  | .power =>
      (20 + df.power i * 2, 50 + rng.hRnd i * 5,
       if powerMean df < df.power i then 1 else 0)
  | .sensorState =>
      (22 + rng.tRnd i * 2, 55 + rng.hRnd i * 4,
       if (df.state i).toUpper = "ON" then 1 else 0)
  | .fallback =>
      (22 + rng.tRnd i, 55 + rng.hRnd i, (rng.mBit i : ℚ))

def mkSSRow (parse : String → Option ℚ) (rng : Rng) (df : KaggleDF) (i : ℕ) :
    SSRow :=
  let b := baseFeatures df rng i
  { ts := parse (df.timeVal i)
    temperature := b.1
    humidity := b.2.1
    motionDetected := b.2.2
    fanSpeed := fanSpeed_of_temp b.1
    ledBrightness := if b.2.2 = 1 then rng.ledHi i else rng.ledLo i
    distance := if b.2.2 = 1 then rng.distHi i else rng.distLo i }

/-- Pandas `sort_values('timestamp')` (stable sort on the parsed timestamp). -/
def sortByTs (rows : List SSRow) : List SSRow :=
  rows.mergeSort fun a b => decide (a.ts.getD 0 ≤ b.ts.getD 0)

/-- Function `convert_to_smartsync_format`: raises `KeyError` when neither `time` nor
`date` exists; otherwise builds the converted frame, drops rows whose
timestamp failed to parse, and sorts by timestamp. -/
def convert_to_smartsync_format (parse : String → Option ℚ) (rng : Rng)
    (df : KaggleDF) : Except String (Branch × List SSRow) :=
  if "time" ∉ df.cols ∧ "date" ∉ df.cols then .error "KeyError"
  else
    let rows := (List.range df.nrows).map (mkSSRow parse rng df)
    .ok (branchOf df, sortByTs (rows.filter fun r => r.ts.isSome))

def parseNone : String → Option ℚ := fun _ => none

def parseZero : String → Option ℚ := fun _ => some 0

def zeroRng : Rng :=
  { tRnd := fun _ => 0, hRnd := fun _ => 0, mBit := fun _ => 0,
    ledHi := fun _ => 0, ledLo := fun _ => 0,
    distHi := fun _ => 0, distLo := fun _ => 0 }

/-- A dataframe lacking the power and sensor/state columns — and also any
time column. -/
def noTimeDF : KaggleDF :=
  { cols := ["foo"], nrows := 1, timeVal := fun _ => "",
    power := fun _ => 0, state := fun _ => "" }

/-- C1 counterexample: a dataframe that lacks `use [kW]` and the
`sensor`/`state` pair but also has no `time`/`date` column makes
`convert_to_smartsync_format` fail (`KeyError`) instead of falling back to
synthetic data. -/
theorem C1_missing_time_column_fails :
    convert_to_smartsync_format parseNone zeroRng noTimeDF = .error "KeyError" ∧
    "use [kW]" ∉ noTimeDF.cols ∧
    ¬("sensor" ∈ noTimeDF.cols ∧ "state" ∈ noTimeDF.cols) := by
  refine ⟨rfl, by decide, by decide⟩

/-- C1 (amended): for every input dataframe that has a `time` or `date`
column but lacks `use [kW]` and the `sensor`/`state` pair, the function does
not fail: it takes the fallback branch and every returned row's temperature,
humidity and motionDetected are the synthetically generated values
`22 + randn`, `55 + randn`, `randint(0,2)`. -/
theorem C1_fallback_synthetic (parse : String → Option ℚ) (rng : Rng)
    (df : KaggleDF)
    (htime : "time" ∈ df.cols ∨ "date" ∈ df.cols)
    (hpow : "use [kW]" ∉ df.cols)
    (hsens : ¬("sensor" ∈ df.cols ∧ "state" ∈ df.cols)) :
    ∃ rows : List SSRow,
      convert_to_smartsync_format parse rng df = .ok (Branch.fallback, rows) ∧
      ∀ r ∈ rows, ∃ i, i < df.nrows ∧
        r.temperature = 22 + rng.tRnd i ∧
        r.humidity = 55 + rng.hRnd i ∧
        r.motionDetected = (rng.mBit i : ℚ) ∧
        r.ts = parse (df.timeVal i) ∧ r.ts.isSome = true := by
  have hbr : branchOf df = Branch.fallback := by
    rw [branchOf, if_neg hpow, if_neg hsens]
  have hguard : ¬("time" ∉ df.cols ∧ "date" ∉ df.cols) := by
    rcases htime with h | h
    · exact fun hc => hc.1 h
    · exact fun hc => hc.2 h
  refine ⟨_, by rw [convert_to_smartsync_format, if_neg hguard, hbr], ?_⟩
  intro r hr
  have hr2 : r ∈ ((List.range df.nrows).map (mkSSRow parse rng df)).filter
      fun r => r.ts.isSome := by
    have hperm := List.mergeSort_perm
      (((List.range df.nrows).map (mkSSRow parse rng df)).filter
        fun r => r.ts.isSome)
      (fun a b : SSRow => decide (a.ts.getD 0 ≤ b.ts.getD 0))
    exact hperm.mem_iff.mp hr
  rw [List.mem_filter] at hr2
  obtain ⟨hmem, hsome⟩ := hr2
  rw [List.mem_map] at hmem
  obtain ⟨i, hi, hrow⟩ := hmem
  rw [List.mem_range] at hi
  simp only [mkSSRow, baseFeatures, hbr] at hrow
  subst hrow
  exact ⟨i, hi, rfl, rfl, rfl, rfl, hsome⟩

/-- C1 witness: the amended statement at a concrete one-row dataframe whose
only column is `time`. -/
theorem C1_fallback_synthetic_witness :
    ∃ rows : List SSRow,
      convert_to_smartsync_format parseZero zeroRng
        { cols := ["time"], nrows := 1, timeVal := fun _ => "2020",
          power := fun _ => 0, state := fun _ => "" }
        = .ok (Branch.fallback, rows) ∧
      ∀ r ∈ rows, ∃ i, i < 1 ∧
        r.temperature = 22 + zeroRng.tRnd i ∧
        r.humidity = 55 + zeroRng.hRnd i ∧
        r.motionDetected = (zeroRng.mBit i : ℚ) ∧
        r.ts = parseZero "2020" ∧ r.ts.isSome = true :=
  C1_fallback_synthetic parseZero zeroRng _
    (Or.inl (by decide)) (by decide) (by decide)

end SmartSync
